import Mathlib

/- Verification of the build-configuration resolution and external-build-driver
logic of `cpp/setup.py` (class `CMakeBuild.build_extension` and the module
constants it reads).

The Python code is shallowly embedded: strings are Lean `String`s (viewed
through their character lists), the ordered `dict` of pre-downloaded source
directories becomes an association list in insertion order (Python 3.7+
dictionaries iterate in insertion order), filesystem queries
(`os.path.isdir`, `os.path.exists`) become boolean-valued functions supplied
as inputs, the presence of an environment variable becomes a boolean input,
and the two `subprocess.check_call` invocations become an event trace
together with an `Except` result.
-/

/-- Character-wise upper-casing, the embedding of Python `str.upper()` for the
ASCII dependency identifiers used here. -/
def strUpper (s : String) : String := ⟨s.data.map Char.toUpper⟩

/-- Embedding of Python `str.endswith(t)`: the characters of `t` form a
suffix of the characters of `s`. -/
def strEndsWith (s t : String) : Bool := t.data.isSuffixOf s.data

/-- Embedding of `os.path.sep` on the Linux platform the build targets. -/
def pathSep : String := "/"

/-- Filesystem state visible to the script: `os.path.isdir` and
`os.path.exists`, both read-only queries evaluated at call time. -/
structure FileSystem where
  isDir : String → Bool
  pathExists : String → Bool

/-- Module constant `PRE_DOWNLOADED_MUJOCO_TAR` of `setup.py`. -/
def preDownloadedMujocoTar : String := "/deps/mujoco-3.1.6-linux-x86_64.tar.gz"

/-- Module constant `PRE_DOWNLOADED_SOURCE_DIRS` of `setup.py`, as an
association list in the dictionary's insertion order. -/
def preDownloadedSourceDirs : List (String × String) :=
  [("abseil-cpp", "/deps/abseil-cpp_c2435f8342c2d0ed8101cb43adfd605fdc52dca2"),
   ("osqp-cpp", "/deps/osqp-cpp_43433736334d6b515ea4b0247156fea9e56c0d3f"),
   ("osqp", "/deps/osqp_0baddd36bd57ec1cace0a52c6dd9663e8f16df0a"),
   ("pybind11", "/deps/pybind11_914c06fb252b6cc3727d0eedab6736e88a3fcb01"),
   ("googletest", "/deps/googletest_e2239ee6043f73722e7aa812a459f54a28552929")]

/-- Inputs of one `build_extension` run that feed the cmake argument
computation: the `debug` flag of the build frontend, the presence of the
`DM_ROBOTICS_USE_PREINSTALLED_LIBRARIES` environment variable, the
dependency-sources table, the raw extension output directory
(`os.path.abspath(os.path.dirname(self.get_ext_fullpath(ext.name)))`),
`sys.executable`, the interpreter version, and the filesystem state. -/
structure ResolveInputs where
  debug : Bool
  overrideEnabled : Bool
  deps : List (String × String)
  extOutputDir : String
  pythonExecutable : String
  pyMajor : Nat
  pyMinor : Nat
  fs : FileSystem

/-- Line 61 of `setup.py`: `build_type = "Debug" if self.debug else "Release"`. -/
def buildTypeOf (debug : Bool) : String := if debug then "Debug" else "Release"

/-- Lines 57-59 of `setup.py`: append `os.path.sep` to the output directory
unless it already ends with it. -/
def normalizeOutputDir (d : String) : String :=
  if strEndsWith d pathSep then d else d ++ pathSep

/-- Lines 63-73 of `setup.py`: the unconditional (structural) cmake
arguments, in source order. -/
def structuralArgs (i : ResolveInputs) : List String :=
  ["-DCMAKE_LIBRARY_OUTPUT_DIRECTORY=" ++ normalizeOutputDir i.extOutputDir,
   "-DPYTHON_EXECUTABLE=" ++ i.pythonExecutable,
   "-DDMR_PYTHON_VERSION=" ++ toString i.pyMajor ++ "." ++ toString i.pyMinor,
   "-DCMAKE_BUILD_TYPE=" ++ buildTypeOf i.debug,
   "-DDM_ROBOTICS_BUILD_TESTS=OFF",
   "-DDM_ROBOTICS_BUILD_WHEEL=True",
   "--log-level=VERBOSE"]

/-- Line 76 of `setup.py`: the pre-downloaded MuJoCo archive flag. -/
def mujocoTarFlag : String :=
  "-DDM_ROBOTICS_MUJOCO_TAR=" ++ preDownloadedMujocoTar

/-- Line 77 of `setup.py`: the flag disabling all network fetching. -/
def disconnectFlag : String := "-DFETCHCONTENT_FULLY_DISCONNECTED:BOOL=TRUE"

/-- Line 78 of `setup.py`: the flag preferring the system-installed Eigen3. -/
def systemEigenFlag : String := "-DDM_ROBOTICS_USE_SYSTEM_Eigen3:BOOL=TRUE"

/-- Lines 76-78 of `setup.py`: the three fixed flags appended whenever
`use_preinstalled_libs` is set, in source order. -/
def overrideFixedFlags : List String :=
  [mujocoTarFlag, disconnectFlag, systemEigenFlag]

/-- Line 83 of `setup.py`:
`f"-DFETCHCONTENT_SOURCE_DIR_{libname.upper()}:STRING={dirname}"`. -/
def depOverrideFlag (libname dirname : String) : String :=
  "-DFETCHCONTENT_SOURCE_DIR_" ++ strUpper libname ++ ":STRING=" ++ dirname

/-- Lines 80-83 of `setup.py`: one flag per dependency whose local directory
exists (`os.path.isdir`), in table order. -/
def dependencyOverrideArgs (isDir : String → Bool) (deps : List (String × String)) :
    List String :=
  deps.filterMap fun q =>
    if isDir q.2 then some (depOverrideFlag q.1 q.2) else none

/-- Lines 50-83 of `setup.py`: the full `cmake_args` list handed to the
configure-phase subprocess. -/
def resolve (i : ResolveInputs) : List String :=
  structuralArgs i ++
    (if i.overrideEnabled then
      overrideFixedFlags ++ dependencyOverrideArgs i.fs.isDir i.deps
    else [])

/-- Lines 85-87 of `setup.py`: `build_args` is `["-j4"]` exactly when
`CMAKE_BUILD_PARALLEL_LEVEL` is absent from the environment. -/
def computeBuildArgs (parallelEnvSet : Bool) : List String :=
  if parallelEnvSet then [] else ["-j4"]

/-- Phase of the two-phase external build. -/
inductive Phase where
  | Configuring : Phase
  | Building : Phase
deriving DecidableEq, Repr

/-- Failure surfaced to the caller: the phase whose subprocess returned a
non-zero exit code, and that exit code (the `returncode` of the
`CalledProcessError` raised by `subprocess.check_call`). -/
structure SubprocessFailure where
  phase : Phase
  code : Int
deriving DecidableEq, Repr

/-- Observable actions of the driver, in order: `os.makedirs` on the staging
directory, and each subprocess invocation with its argument vector and
working directory. -/
inductive BuildEvent where
  | makedirs : String → BuildEvent
  | call : List String → String → BuildEvent
deriving DecidableEq, Repr

/-- Inputs of the driver part of `build_extension` (lines 91-99): the cmake
executable (`ext.cmake`), the resolved `cmake_args` and `build_args`, the
extension source directory, the staging directory (`self.build_temp`), the
filesystem state, and the subprocess runner mapping an argument vector and a
working directory to an exit code. -/
structure DriverInputs where
  cmake : String
  configArgs : List String
  buildArgs : List String
  sourcedir : String
  buildTemp : String
  fs : FileSystem
  runner : List String → String → Int

/-- Line 96 of `setup.py`: `[ext.cmake] + cmake_args + ["-S", ext.sourcedir]`. -/
def configureCmd (d : DriverInputs) : List String :=
  d.cmake :: (d.configArgs ++ ["-S", d.sourcedir])

/-- Line 99 of `setup.py`: `[ext.cmake, "--build", "."] + build_args`. -/
def buildCmd (d : DriverInputs) : List String :=
  [d.cmake, "--build", "."] ++ d.buildArgs

/-- Lines 91-92 of `setup.py`: `os.makedirs(self.build_temp)` runs exactly
when `os.path.exists(self.build_temp)` is false. -/
def mkdirEvents (d : DriverInputs) : List BuildEvent :=
  if d.fs.pathExists d.buildTemp then [] else [BuildEvent.makedirs d.buildTemp]

/-- Lines 91-99 of `setup.py`: create the staging directory if absent, run
the configure-phase subprocess in it, and only if that exits with code 0 run
the build-phase subprocess in it; a non-zero exit propagates as a
`SubprocessFailure` of the phase it occurred in. Returns the ordered event
trace together with the outcome. -/
def build (d : DriverInputs) : List BuildEvent × Except SubprocessFailure Unit :=
  let pre := mkdirEvents d
  let c1 := d.runner (configureCmd d) d.buildTemp
  if c1 = 0 then
    let c2 := d.runner (buildCmd d) d.buildTemp
    if c2 = 0 then
      (pre ++ [BuildEvent.call (configureCmd d) d.buildTemp,
               BuildEvent.call (buildCmd d) d.buildTemp], Except.ok ())
    else
      (pre ++ [BuildEvent.call (configureCmd d) d.buildTemp,
               BuildEvent.call (buildCmd d) d.buildTemp],
       Except.error ⟨Phase.Building, c2⟩)
  else
    (pre ++ [BuildEvent.call (configureCmd d) d.buildTemp],
     Except.error ⟨Phase.Configuring, c1⟩)

/-- Filesystem in which no path is a directory and no path exists. -/
def sampleFsNone : FileSystem :=
  { isDir := fun _ => false, pathExists := fun _ => false }

/-- Filesystem in which every path is a directory and every path exists. -/
def sampleFsAll : FileSystem :=
  { isDir := fun _ => true, pathExists := fun _ => true }

/-- Filesystem in which exactly the pre-staged abseil path is a directory. -/
def sampleFsAbseilDir : FileSystem :=
  { isDir := fun p => p == "/deps/abseil-cpp_c2435f8342c2d0ed8101cb43adfd605fdc52dca2",
    pathExists := fun p => p == "/deps/abseil-cpp_c2435f8342c2d0ed8101cb43adfd605fdc52dca2" }

/-- Filesystem in which the pre-staged abseil path exists but is a regular
file, so it is not a directory. -/
def sampleFsAbseilFile : FileSystem :=
  { isDir := fun _ => false,
    pathExists := fun p => p == "/deps/abseil-cpp_c2435f8342c2d0ed8101cb43adfd605fdc52dca2" }

/-- Concrete resolver inputs used to evaluate the definitions. -/
def sampleResolveInputs (ov : Bool) (fs : FileSystem) : ResolveInputs :=
  { debug := false, overrideEnabled := ov, deps := preDownloadedSourceDirs,
    extOutputDir := "/out", pythonExecutable := "/usr/bin/python3",
    pyMajor := 3, pyMinor := 10, fs := fs }

/-- Subprocess runner that always reports exit code 1. -/
def sampleRunnerFail : List String → String → Int := fun _ _ => 1

/-- Subprocess runner that always reports exit code 0. -/
def sampleRunnerOk : List String → String → Int := fun _ _ => 0

/-- Concrete driver inputs used to evaluate the definitions. -/
def sampleDriverInputs (tempExists : Bool) (r : List String → String → Int) :
    DriverInputs :=
  { cmake := "cmake", configArgs := ["-DCMAKE_BUILD_TYPE=Release"],
    buildArgs := ["-j4"], sourcedir := "/src", buildTemp := "/tmp/build",
    fs := { isDir := fun _ => false, pathExists := fun _ => tempExists },
    runner := r }

theorem string_data_inj {s t : String} (h : s.data = t.data) : s = t := by
  cases s; cases t; exact congrArg String.mk h

theorem string_append_empty (s : String) : s ++ "" = s :=
  string_data_inj (by simp [String.data_append])

theorem string_append_assoc (a b c : String) : a ++ b ++ c = a ++ (b ++ c) :=
  string_data_inj (by simp [String.data_append])

theorem list_append_ne {α : Type} {a b : List α} (x y : List α) (k : Nat)
    (h1 : k < a.length) (h2 : k < b.length)
    (hne : a.get ⟨k, h1⟩ ≠ b.get ⟨k, h2⟩) : a ++ x ≠ b ++ y := by
  intro he
  apply hne
  have h3 : (a ++ x)[k]? = (b ++ y)[k]? := by rw [he]
  rw [List.getElem?_append, List.getElem?_append] at h3
  simp only [h1, h2, if_true, List.getElem?_eq_getElem] at h3
  simpa using h3

theorem string_append_ne {p q : String} (x y : String) (k : Nat)
    (h1 : k < p.data.length) (h2 : k < q.data.length)
    (hne : p.data.get ⟨k, h1⟩ ≠ q.data.get ⟨k, h2⟩) : p ++ x ≠ q ++ y := by
  intro he
  have hd : p.data ++ x.data = q.data ++ y.data := by
    rw [← String.data_append, ← String.data_append, he]
  exact list_append_ne x.data y.data k h1 h2 hne hd

theorem string_ne_append {p q : String} (y : String) (k : Nat)
    (h1 : k < p.data.length) (h2 : k < q.data.length)
    (hne : p.data.get ⟨k, h1⟩ ≠ q.data.get ⟨k, h2⟩) : p ≠ q ++ y := by
  intro he
  exact string_append_ne "" y k h1 h2 hne (by rw [string_append_empty]; exact he)

theorem colon_split : ∀ (a c b d : List Char), ':' ∉ a → ':' ∉ c →
    a ++ ':' :: b = c ++ ':' :: d → a = c ∧ b = d := by
  intro a
  induction a with
  | nil =>
    intro c b d _ hc he
    cases c with
    | nil =>
      simp only [List.nil_append, List.cons.injEq] at he
      exact ⟨rfl, he.2⟩
    | cons c0 ct =>
      simp only [List.nil_append, List.cons_append, List.cons.injEq] at he
      exact absurd (by rw [he.1]; exact List.mem_cons_self c0 ct) hc
  | cons a0 tl ih =>
    intro c b d ha hc he
    cases c with
    | nil =>
      simp only [List.cons_append, List.nil_append, List.cons.injEq] at he
      exact absurd (by rw [← he.1]; exact List.mem_cons_self a0 tl) ha
    | cons c0 ct =>
      simp only [List.cons_append, List.cons.injEq] at he
      have hrec := ih ct b d (fun hm => ha (List.mem_cons_of_mem a0 hm))
        (fun hm => hc (List.mem_cons_of_mem c0 hm)) he.2
      exact ⟨by rw [he.1, hrec.1], hrec.2⟩

theorem depOverrideFlag_inj {id1 p1 id2 p2 : String}
    (h1 : ':' ∉ (strUpper id1).data) (h2 : ':' ∉ (strUpper id2).data)
    (he : depOverrideFlag id1 p1 = depOverrideFlag id2 p2) :
    strUpper id1 = strUpper id2 ∧ p1 = p2 := by
  have hd := congrArg String.data he
  simp only [depOverrideFlag, String.data_append, List.append_assoc] at hd
  have hd2 := List.append_cancel_left hd
  simp only [List.cons_append] at hd2
  obtain ⟨hu, hp⟩ := colon_split _ _ _ _ h1 h2 hd2
  simp only [List.cons.injEq, true_and] at hp
  exact ⟨string_data_inj hu, string_data_inj hp⟩

theorem mem_dependencyOverrideArgs {isDir : String → Bool}
    {deps : List (String × String)} {s : String} :
    s ∈ dependencyOverrideArgs isDir deps ↔
      ∃ q ∈ deps, isDir q.2 = true ∧ depOverrideFlag q.1 q.2 = s := by
  simp only [dependencyOverrideArgs, List.mem_filterMap]
  constructor
  · rintro ⟨q, hq, hf⟩
    by_cases hd : isDir q.2 = true
    · simp only [hd, if_true, Option.some.injEq] at hf
      exact ⟨q, hq, hd, hf⟩
    · simp [hd] at hf
  · rintro ⟨q, hq, hd, hf⟩
    exact ⟨q, hq, by simp [hd, hf]⟩

theorem dependencyOverrideArgs_nil (isDir : String → Bool) :
    ∀ deps : List (String × String), (∀ q ∈ deps, isDir q.2 = false) →
      dependencyOverrideArgs isDir deps = [] := by
  intro deps
  induction deps with
  | nil => intro _; rfl
  | cons q t ih =>
    intro h
    have hq := h q (List.mem_cons_self q t)
    simp only [dependencyOverrideArgs, List.filterMap_cons, hq]
    exact ih fun r hr => h r (List.mem_cons_of_mem q hr)

theorem depOverrideFlag_not_mem_structuralArgs (i : ResolveInputs) (id path : String) :
    depOverrideFlag id path ∉ structuralArgs i := by
  intro hm
  simp only [structuralArgs, depOverrideFlag, string_append_assoc, List.mem_cons,
    List.not_mem_nil, or_false] at hm
  rcases hm with h | h | h | h | h | h | h
  · exact string_append_ne _ _ 2 (by decide) (by decide) (by decide) h
  · exact string_append_ne _ _ 2 (by decide) (by decide) (by decide) h
  · exact string_append_ne _ _ 2 (by decide) (by decide) (by decide) h
  · exact string_append_ne _ _ 2 (by decide) (by decide) (by decide) h
  · exact string_ne_append _ 2 (by decide) (by decide) (by decide) h.symm
  · exact string_ne_append _ 2 (by decide) (by decide) (by decide) h.symm
  · exact string_ne_append _ 1 (by decide) (by decide) (by decide) h.symm

theorem disconnectFlag_not_mem_structuralArgs (i : ResolveInputs) :
    disconnectFlag ∉ structuralArgs i := by
  intro hm
  simp only [structuralArgs, disconnectFlag, string_append_assoc, List.mem_cons,
    List.not_mem_nil, or_false] at hm
  rcases hm with h | h | h | h | h | h | h
  · exact string_ne_append _ 2 (by decide) (by decide) (by decide) h
  · exact string_ne_append _ 2 (by decide) (by decide) (by decide) h
  · exact string_ne_append _ 2 (by decide) (by decide) (by decide) h
  · exact string_ne_append _ 2 (by decide) (by decide) (by decide) h
  · exact absurd h (by decide)
  · exact absurd h (by decide)
  · exact absurd h (by decide)

theorem depOverrideFlag_not_mem_overrideFixedFlags (id path : String) :
    depOverrideFlag id path ∉ overrideFixedFlags := by
  intro hm
  simp only [overrideFixedFlags, mujocoTarFlag, disconnectFlag, systemEigenFlag,
    preDownloadedMujocoTar, depOverrideFlag, string_append_assoc,
    List.mem_cons, List.not_mem_nil, or_false] at hm
  rcases hm with h | h | h
  · exact string_append_ne _ _ 2 (by decide) (by decide) (by decide) h
  · exact string_ne_append _ 15 (by decide) (by decide) (by decide) h.symm
  · exact string_ne_append _ 2 (by decide) (by decide) (by decide) h.symm

theorem count_dependencyOverrideArgs (isDir : String → Bool) (id path : String)
    (hid : ':' ∉ (strUpper id).data) (hdir : isDir path = true) :
    ∀ deps : List (String × String),
      (∀ q ∈ deps, ':' ∉ (strUpper q.1).data) →
      (deps.map fun q => (strUpper q.1, q.2)).Nodup →
      (id, path) ∈ deps →
      (dependencyOverrideArgs isDir deps).count (depOverrideFlag id path) = 1 := by
  intro deps
  induction deps with
  | nil => intro _ _ hmem; cases hmem
  | cons q t ih =>
    intro hall hnodup hmem
    have hallt : ∀ r ∈ t, ':' ∉ (strUpper r.1).data :=
      fun r hr => hall r (List.mem_cons_of_mem q hr)
    rw [List.map_cons] at hnodup
    have hnd := List.nodup_cons.mp hnodup
    rcases List.mem_cons.mp hmem with hq | hmt
    · have hdq : isDir q.2 = true := by rw [← hq]; exact hdir
      have hfq : depOverrideFlag q.1 q.2 = depOverrideFlag id path := by rw [← hq]
      have hz : depOverrideFlag id path ∉ dependencyOverrideArgs isDir t := by
        intro hmem2
        obtain ⟨r, hrt, _, hre⟩ := mem_dependencyOverrideArgs.mp hmem2
        obtain ⟨hu, hp⟩ := depOverrideFlag_inj (hallt r hrt) hid hre
        have hpair : (strUpper id, path) ∈ t.map fun w => (strUpper w.1, w.2) :=
          List.mem_map.mpr ⟨r, hrt, by rw [hu, hp]⟩
        have hgq : (strUpper q.1, q.2) = (strUpper id, path) := by rw [← hq]
        exact hnd.1 (hgq ▸ hpair)
      simp only [dependencyOverrideArgs, List.filterMap_cons, hdq, if_true]
      rw [hfq, List.count_cons_self]
      have : (dependencyOverrideArgs isDir t).count (depOverrideFlag id path) = 0 :=
        List.count_eq_zero.mpr hz
      simp only [dependencyOverrideArgs] at this
      rw [this]
    · have hpair : (strUpper id, path) ∈ t.map fun w => (strUpper w.1, w.2) :=
        List.mem_map.mpr ⟨(id, path), hmt, rfl⟩
      have hne : depOverrideFlag id path ≠ depOverrideFlag q.1 q.2 := by
        intro he
        obtain ⟨hu, hp⟩ :=
          depOverrideFlag_inj hid (hall q (List.mem_cons_self q t)) he
        exact hnd.1 (by rw [← hu, ← hp]; exact hpair)
      have hrec := ih hallt hnd.2 hmt
      by_cases hdq : isDir q.2 = true
      · simp only [dependencyOverrideArgs, List.filterMap_cons, hdq, if_true]
        rw [List.count_cons_of_ne hne]
        simpa only [dependencyOverrideArgs] using hrec
      · have hdq2 : isDir q.2 = false := by
          cases hb : isDir q.2
          · rfl
          · exact absurd hb hdq
        simp only [dependencyOverrideArgs, List.filterMap_cons, hdq2]
        simpa only [dependencyOverrideArgs] using hrec

theorem resolve_override_true {i : ResolveInputs} (h : i.overrideEnabled = true) :
    resolve i = structuralArgs i ++
      (overrideFixedFlags ++ dependencyOverrideArgs i.fs.isDir i.deps) := by
  simp only [resolve, h, if_true]

theorem resolve_override_false {i : ResolveInputs} (h : i.overrideEnabled = false) :
    resolve i = structuralArgs i := by
  simp [resolve, h]

theorem normalizeOutputDir_endsWith (d : String) :
    strEndsWith (normalizeOutputDir d) pathSep = true := by
  unfold normalizeOutputDir
  by_cases h : strEndsWith d pathSep = true
  · simp only [h, if_true]
  · have h2 : strEndsWith d pathSep = false := by
      cases hb : strEndsWith d pathSep
      · rfl
      · exact absurd hb h
    simp only [h2, Bool.false_eq_true, if_false]
    simp [strEndsWith, pathSep, List.isSuffixOf, String.data_append]

theorem normalizeOutputDir_of_endsWith {d : String}
    (h : strEndsWith d pathSep = true) : normalizeOutputDir d = d := by
  simp [normalizeOutputDir, h]

theorem normalizeOutputDir_idem (d : String) :
    normalizeOutputDir (normalizeOutputDir d) = normalizeOutputDir d :=
  normalizeOutputDir_of_endsWith (normalizeOutputDir_endsWith d)

/-- C5: for every output directory path, the Configuration Resolver's
normalization yields a path ending in the path separator; for every path
already ending in the separator, normalizing leaves it unchanged; hence the
normalization is idempotent. -/
theorem c5_normalize_spec (d : String) :
    strEndsWith (normalizeOutputDir d) pathSep = true ∧
    (strEndsWith d pathSep = true → normalizeOutputDir d = d) ∧
    normalizeOutputDir (normalizeOutputDir d) = normalizeOutputDir d :=
  ⟨normalizeOutputDir_endsWith d,
   fun h => normalizeOutputDir_of_endsWith h,
   normalizeOutputDir_idem d⟩

/-- Witness for C5 at the concrete path `/out/`, which already ends in the
separator and is left unchanged. -/
theorem c5_witness :
    strEndsWith "/out/" pathSep = true ∧ normalizeOutputDir "/out/" = "/out/" :=
  ⟨by decide, (c5_normalize_spec "/out/").2.1 (by decide)⟩

/-- C3: the Configuration Resolver is deterministic: two invocations agreeing
on the debug flag, the override setting, the dependency-sources table, the
output directory, the interpreter path and version, and the directory
predicate of the filesystem produce element-for-element identical argument
lists. -/
theorem c3_resolve_deterministic (i j : ResolveInputs)
    (hdebug : i.debug = j.debug) (hov : i.overrideEnabled = j.overrideEnabled)
    (hdeps : i.deps = j.deps) (hout : i.extOutputDir = j.extOutputDir)
    (hexe : i.pythonExecutable = j.pythonExecutable)
    (hmaj : i.pyMajor = j.pyMajor) (hmin : i.pyMinor = j.pyMinor)
    (hfs : i.fs.isDir = j.fs.isDir) :
    resolve i = resolve j := by
  simp only [resolve, structuralArgs, buildTypeOf, normalizeOutputDir,
    dependencyOverrideArgs, hdebug, hov, hdeps, hout, hexe, hmaj, hmin, hfs]

/-- Witness for C3: two identical concrete invocations yield the same list. -/
theorem c3_witness :
    resolve (sampleResolveInputs false sampleFsNone)
      = resolve (sampleResolveInputs false sampleFsNone) :=
  c3_resolve_deterministic _ _ rfl rfl rfl rfl rfl rfl rfl rfl

/-- C4: with the override disabled the resolved list is exactly the
structural flags, contains no network-disable flag, and contains no
dependency-override flag, whatever the dependency table and the filesystem
say. -/
theorem c4_no_override_structural_only (i : ResolveInputs)
    (h : i.overrideEnabled = false) :
    resolve i = structuralArgs i ∧
    disconnectFlag ∉ resolve i ∧
    ∀ id path : String, depOverrideFlag id path ∉ resolve i := by
  have hr := resolve_override_false h
  refine ⟨hr, ?_, ?_⟩
  · rw [hr]; exact disconnectFlag_not_mem_structuralArgs i
  · intro id path; rw [hr]; exact depOverrideFlag_not_mem_structuralArgs i id path

/-- Witness for C4 at a concrete invocation whose filesystem would accept
every dependency path, showing the table is still ignored. -/
theorem c4_witness :
    (sampleResolveInputs false sampleFsAll).overrideEnabled = false ∧
    resolve (sampleResolveInputs false sampleFsAll)
      = structuralArgs (sampleResolveInputs false sampleFsAll) :=
  ⟨rfl, (c4_no_override_structural_only _ rfl).1⟩

/-- C9: the output directory `/out` is normalized to `/out/`; every
invocation with `debug = false` and the override disabled has
`-DCMAKE_BUILD_TYPE=Release` among its arguments and no network-disable
flag; with `debug = true` the build mode is `Debug`; and the build mode is
always one of exactly these two values. -/
theorem c9_scenario_release :
    normalizeOutputDir "/out" = "/out/" ∧
    (∀ i : ResolveInputs, i.debug = false → i.overrideEnabled = false →
      "-DCMAKE_BUILD_TYPE=Release" ∈ resolve i ∧ disconnectFlag ∉ resolve i) ∧
    buildTypeOf true = "Debug" ∧
    (∀ b : Bool, buildTypeOf b = "Debug" ∨ buildTypeOf b = "Release") := by
  refine ⟨by decide, ?_, rfl, ?_⟩
  · intro i hdbg hov
    constructor
    · rw [resolve_override_false hov]
      have hb : ("-DCMAKE_BUILD_TYPE=Release" : String)
          = "-DCMAKE_BUILD_TYPE=" ++ buildTypeOf i.debug := by
        rw [hdbg]; decide
      rw [hb]
      simp [structuralArgs]
    · rw [resolve_override_false hov]
      exact disconnectFlag_not_mem_structuralArgs i
  · intro b
    cases b
    · exact Or.inr rfl
    · exact Or.inl rfl

/-- Witness for C9 at a concrete no-override release invocation. -/
theorem c9_witness :
    (sampleResolveInputs false sampleFsNone).debug = false ∧
    (sampleResolveInputs false sampleFsNone).overrideEnabled = false ∧
    "-DCMAKE_BUILD_TYPE=Release" ∈ resolve (sampleResolveInputs false sampleFsNone) :=
  ⟨rfl, rfl, (c9_scenario_release.2.1 _ rfl rfl).1⟩

/-- C1 counterexample: with the override enabled and a filesystem on which no
dependency path exists, the resolved list extends the structural flags by
three fixed flags (the pre-downloaded MuJoCo archive flag, the
network-disable flag, and the system-Eigen3 flag), so no two-element
extension exists as the claim requires. -/
theorem c1_counterexample :
    ¬ ∃ extras : List String,
        resolve (sampleResolveInputs true sampleFsNone)
          = structuralArgs (sampleResolveInputs true sampleFsNone) ++ extras ∧
        extras.length = 2 := by
  rintro ⟨extras, heq, hlen⟩
  have hr : resolve (sampleResolveInputs true sampleFsNone)
      = structuralArgs (sampleResolveInputs true sampleFsNone) ++
        [mujocoTarFlag, disconnectFlag, systemEigenFlag] := by
    rw [resolve_override_true rfl,
      dependencyOverrideArgs_nil _ _ (fun _ _ => rfl)]
    rfl
  rw [hr] at heq
  have hex : extras = [mujocoTarFlag, disconnectFlag, systemEigenFlag] :=
    (List.append_cancel_left heq.symm)
  rw [hex] at hlen
  simp at hlen

/-- C1 amended: with the override enabled and every dependency path absent,
the resolved list is the structural flags followed by exactly three fixed
override flags (pre-downloaded MuJoCo archive, network disable, system
Eigen3) and zero dependency-specific override flags. -/
theorem c1_amended_override_no_deps (i : ResolveInputs)
    (hov : i.overrideEnabled = true)
    (hnone : ∀ q ∈ i.deps, i.fs.isDir q.2 = false) :
    resolve i = structuralArgs i ++
      [mujocoTarFlag, disconnectFlag, systemEigenFlag] ∧
    (∀ id path : String, depOverrideFlag id path ∉ resolve i) := by
  have hr : resolve i = structuralArgs i ++
      [mujocoTarFlag, disconnectFlag, systemEigenFlag] := by
    rw [resolve_override_true hov, dependencyOverrideArgs_nil _ _ hnone]
    rfl
  refine ⟨hr, ?_⟩
  intro id path hm
  rw [hr] at hm
  rcases List.mem_append.mp hm with h | h
  · exact depOverrideFlag_not_mem_structuralArgs i id path h
  · exact depOverrideFlag_not_mem_overrideFixedFlags id path h

/-- Witness for the amended C1 at the concrete override invocation with no
existing dependency directory. -/
theorem c1_witness :
    (sampleResolveInputs true sampleFsNone).overrideEnabled = true ∧
    resolve (sampleResolveInputs true sampleFsNone)
      = structuralArgs (sampleResolveInputs true sampleFsNone) ++
        [mujocoTarFlag, disconnectFlag, systemEigenFlag] :=
  ⟨rfl, (c1_amended_override_no_deps _ rfl (fun _ _ => rfl)).1⟩

/-- C2: with the override enabled, a dependency-sources entry whose local
path is an existing directory contributes exactly one dependency-override
flag, the string `-DFETCHCONTENT_SOURCE_DIR_<UPPER_ID>:STRING=<path>` whose
variable component is the upper-cased dependency identifier (the
`SOURCE_FOR_<UPPER_ID>=<path>` shape of the specification). The identifier
hypotheses rule out degenerate identifiers whose upper-casing contains `:`
or that collide after upper-casing. -/
theorem c2_override_existing_dep_flag (i : ResolveInputs) (id path : String)
    (hov : i.overrideEnabled = true)
    (hmem : (id, path) ∈ i.deps)
    (hdir : i.fs.isDir path = true)
    (hall : ∀ q ∈ i.deps, ':' ∉ (strUpper q.1).data)
    (hnodup : (i.deps.map fun q => (strUpper q.1, q.2)).Nodup) :
    (resolve i).count (depOverrideFlag id path) = 1 := by
  have hid : ':' ∉ (strUpper id).data := hall (id, path) hmem
  rw [resolve_override_true hov, List.count_append, List.count_append]
  have h1 : (structuralArgs i).count (depOverrideFlag id path) = 0 :=
    List.count_eq_zero.mpr (depOverrideFlag_not_mem_structuralArgs i id path)
  have h2 : overrideFixedFlags.count (depOverrideFlag id path) = 0 :=
    List.count_eq_zero.mpr (depOverrideFlag_not_mem_overrideFixedFlags id path)
  rw [h1, h2,
    count_dependencyOverrideArgs i.fs.isDir id path hid hdir i.deps hall hnodup hmem]

/-- Witness for C2: with only the abseil path present as a directory, its
flag occurs exactly once in the resolved list. -/
theorem c2_witness :
    ("abseil-cpp", "/deps/abseil-cpp_c2435f8342c2d0ed8101cb43adfd605fdc52dca2")
        ∈ (sampleResolveInputs true sampleFsAbseilDir).deps ∧
    (resolve (sampleResolveInputs true sampleFsAbseilDir)).count
      (depOverrideFlag "abseil-cpp"
        "/deps/abseil-cpp_c2435f8342c2d0ed8101cb43adfd605fdc52dca2") = 1 :=
  ⟨by decide,
   c2_override_existing_dep_flag _ _ _ rfl (by decide) (by decide)
     (by decide) (by decide)⟩

/-- C10: a dependency-sources entry whose local path exists on the
filesystem but is not a directory contributes no dependency-override flag:
the predicate the resolver consults is `os.path.isdir`, and the
`os.path.exists` part of the filesystem state does not influence the
resolved list at all. -/
theorem c10_isdir_not_exists (i : ResolveInputs) (id path : String)
    (hmem : (id, path) ∈ i.deps)
    (_hexists : i.fs.pathExists path = true)
    (hnotdir : i.fs.isDir path = false)
    (hall : ∀ q ∈ i.deps, ':' ∉ (strUpper q.1).data) :
    depOverrideFlag id path ∉ resolve i ∧
    ∀ pe : String → Bool,
      resolve { i with fs := { isDir := i.fs.isDir, pathExists := pe } }
        = resolve i := by
  constructor
  · intro hm
    rcases List.mem_append.mp hm with h | h
    · exact depOverrideFlag_not_mem_structuralArgs i id path h
    · by_cases hov : i.overrideEnabled = true
      · simp only [hov, eq_self_iff_true, if_true] at h
        rcases List.mem_append.mp h with h2 | h2
        · exact depOverrideFlag_not_mem_overrideFixedFlags id path h2
        · obtain ⟨r, hrt, hrd, hre⟩ := mem_dependencyOverrideArgs.mp h2
          obtain ⟨_, hp⟩ :=
            depOverrideFlag_inj (hall r hrt) (hall (id, path) hmem) hre
          rw [hp] at hrd
          rw [hrd] at hnotdir
          exact absurd hnotdir (by decide)
      · have hov2 : i.overrideEnabled = false := by
          cases hb : i.overrideEnabled
          · rfl
          · exact absurd hb hov
        rw [hov2] at h
        simp at h
  · intro pe
    rfl

/-- Witness for C10: the abseil path exists as a regular file, and its
would-be override flag is absent from the resolved list. -/
theorem c10_witness :
    (sampleResolveInputs true sampleFsAbseilFile).fs.pathExists
        "/deps/abseil-cpp_c2435f8342c2d0ed8101cb43adfd605fdc52dca2" = true ∧
    depOverrideFlag "abseil-cpp"
        "/deps/abseil-cpp_c2435f8342c2d0ed8101cb43adfd605fdc52dca2"
      ∉ resolve (sampleResolveInputs true sampleFsAbseilFile) :=
  ⟨by decide,
   (c10_isdir_not_exists _ _ _ (by decide) (by decide) rfl (by decide)).1⟩

/-- C6: when the configure-phase subprocess exits with a non-zero code, the
driver surfaces a `SubprocessFailure` carrying phase `Configuring` and that
exit code unchanged, and the event trace contains only the (possible)
directory creation and the single configure-phase call, so the
build-phase subprocess is never invoked. -/
theorem c6_configure_failure (d : DriverInputs) (c : Int)
    (hrun : d.runner (configureCmd d) d.buildTemp = c) (hc : c ≠ 0) :
    (build d).2 = Except.error ⟨Phase.Configuring, c⟩ ∧
    (build d).1 = mkdirEvents d ++ [BuildEvent.call (configureCmd d) d.buildTemp] := by
  rw [build]
  simp only [hrun, if_neg hc]
  exact ⟨trivial, trivial⟩

/-- Witness for C6 with a runner that exits with code 1. -/
theorem c6_witness :
    (sampleDriverInputs true sampleRunnerFail).runner
        (configureCmd (sampleDriverInputs true sampleRunnerFail))
        (sampleDriverInputs true sampleRunnerFail).buildTemp = 1 ∧
    (build (sampleDriverInputs true sampleRunnerFail)).2
      = Except.error ⟨Phase.Configuring, 1⟩ :=
  ⟨rfl, (c6_configure_failure _ 1 rfl (by decide)).1⟩

/-- C7: when the staging directory already exists no directory-creation step
occurs and the outcome is unaffected by the staging-directory state (so a
pre-existing directory never makes the build fail); when it is absent it is
created before any subprocess is launched; every subprocess call runs with
the staging directory as its working directory; and once the configure phase
succeeds both phase calls appear in the trace. -/
theorem c7_staging_dir (d : DriverInputs) :
    (d.fs.pathExists d.buildTemp = true →
       BuildEvent.makedirs d.buildTemp ∉ (build d).1) ∧
    (d.fs.pathExists d.buildTemp = false →
       (build d).1.head? = some (BuildEvent.makedirs d.buildTemp)) ∧
    (∀ a c, BuildEvent.call a c ∈ (build d).1 → c = d.buildTemp) ∧
    (d.runner (configureCmd d) d.buildTemp = 0 →
       BuildEvent.call (configureCmd d) d.buildTemp ∈ (build d).1 ∧
       BuildEvent.call (buildCmd d) d.buildTemp ∈ (build d).1) ∧
    (∀ pe : String → Bool,
       (build { d with fs := { isDir := d.fs.isDir, pathExists := pe } }).2
         = (build d).2) := by
  refine ⟨?_, ?_, ?_, ?_, ?_⟩
  · intro hex hm
    by_cases h1 : d.runner (configureCmd d) d.buildTemp = 0
    · by_cases h2 : d.runner (buildCmd d) d.buildTemp = 0
      · simp [build, mkdirEvents, hex, h1, h2] at hm
      · simp [build, mkdirEvents, hex, h1, h2] at hm
    · simp [build, mkdirEvents, hex, h1] at hm
  · intro hex
    by_cases h1 : d.runner (configureCmd d) d.buildTemp = 0
    · by_cases h2 : d.runner (buildCmd d) d.buildTemp = 0
      · simp [build, mkdirEvents, hex, h1, h2]
      · simp [build, mkdirEvents, hex, h1, h2]
    · simp [build, mkdirEvents, hex, h1]
  · intro a c hm
    by_cases hex : d.fs.pathExists d.buildTemp = true
    · by_cases h1 : d.runner (configureCmd d) d.buildTemp = 0
      · by_cases h2 : d.runner (buildCmd d) d.buildTemp = 0
        · simp [build, mkdirEvents, hex, h1, h2] at hm
          rcases hm with ⟨_, hc⟩ | ⟨_, hc⟩ <;> exact hc
        · simp [build, mkdirEvents, hex, h1, h2] at hm
          rcases hm with ⟨_, hc⟩ | ⟨_, hc⟩ <;> exact hc
      · simp [build, mkdirEvents, hex, h1] at hm
        exact hm.2
    · by_cases h1 : d.runner (configureCmd d) d.buildTemp = 0
      · by_cases h2 : d.runner (buildCmd d) d.buildTemp = 0
        · simp [build, mkdirEvents, hex, h1, h2] at hm
          rcases hm with ⟨_, hc⟩ | ⟨_, hc⟩ <;> exact hc
        · simp [build, mkdirEvents, hex, h1, h2] at hm
          rcases hm with ⟨_, hc⟩ | ⟨_, hc⟩ <;> exact hc
      · simp [build, mkdirEvents, hex, h1] at hm
        exact hm.2
  · intro h1
    by_cases h2 : d.runner (buildCmd d) d.buildTemp = 0
    · constructor
      · simp [build, h1, h2]
      · simp [build, h1, h2]
    · constructor
      · simp [build, h1, h2]
      · simp [build, h1, h2]
  · intro pe
    by_cases h1 : d.runner (configureCmd d) d.buildTemp = 0
    · by_cases h2 : d.runner (buildCmd d) d.buildTemp = 0
      · simp only [configureCmd] at h1
        simp only [buildCmd, List.cons_append, List.nil_append] at h2
        simp [build, configureCmd, buildCmd, h1, h2]
      · simp only [configureCmd] at h1
        simp only [buildCmd, List.cons_append, List.nil_append] at h2
        simp [build, configureCmd, buildCmd, h1, h2]
    · simp only [configureCmd] at h1
      simp [build, configureCmd, buildCmd, h1]

/-- Witness for C7: with an already-existing staging directory and a runner
that always succeeds, no directory is created and the build-phase call runs
inside the staging directory. -/
theorem c7_witness :
    (sampleDriverInputs true sampleRunnerOk).fs.pathExists
        (sampleDriverInputs true sampleRunnerOk).buildTemp = true ∧
    BuildEvent.makedirs (sampleDriverInputs true sampleRunnerOk).buildTemp
      ∉ (build (sampleDriverInputs true sampleRunnerOk)).1 ∧
    BuildEvent.call (buildCmd (sampleDriverInputs true sampleRunnerOk))
        (sampleDriverInputs true sampleRunnerOk).buildTemp
      ∈ (build (sampleDriverInputs true sampleRunnerOk)).1 :=
  ⟨rfl, (c7_staging_dir (sampleDriverInputs true sampleRunnerOk)).1 rfl,
   ((c7_staging_dir (sampleDriverInputs true sampleRunnerOk)).2.2.2.1 rfl).2⟩

/-- C8: the driver passes its default parallelism flag `-j4` to the
build-phase subprocess exactly when the environment does not set
`CMAKE_BUILD_PARALLEL_LEVEL`; when the environment sets it, the driver adds
no parallelism flag of its own. -/
theorem c8_parallelism (d : DriverInputs) (p : Bool)
    (hargs : d.buildArgs = computeBuildArgs p)
    (hcfg : d.runner (configureCmd d) d.buildTemp = 0) :
    BuildEvent.call ([d.cmake, "--build", "."] ++ computeBuildArgs p) d.buildTemp
      ∈ (build d).1 ∧
    ("-j4" ∈ computeBuildArgs p ↔ p = false) := by
  constructor
  · have hb : buildCmd d = [d.cmake, "--build", "."] ++ computeBuildArgs p := by
      rw [buildCmd, hargs]
    rw [← hb]
    by_cases h2 : d.runner (buildCmd d) d.buildTemp = 0
    · simp [build, hcfg, h2]
    · simp [build, hcfg, h2]
  · cases p
    · simp [computeBuildArgs]
    · simp [computeBuildArgs]

/-- Witness for C8 with the parallelism variable absent and an
always-succeeding runner. -/
theorem c8_witness :
    (sampleDriverInputs true sampleRunnerOk).buildArgs = computeBuildArgs false ∧
    BuildEvent.call
        ([(sampleDriverInputs true sampleRunnerOk).cmake, "--build", "."]
          ++ computeBuildArgs false)
        (sampleDriverInputs true sampleRunnerOk).buildTemp
      ∈ (build (sampleDriverInputs true sampleRunnerOk)).1 :=
  ⟨rfl, (c8_parallelism (sampleDriverInputs true sampleRunnerOk) false rfl rfl).1⟩
